import Mathlib

set_option maxRecDepth 4000

/-!
Shallow embedding of the bookmark ingestion pipeline of the
Link-Saver-Auto-Summary repository, covering `src/lib/utils.js` and
`src/components/Dashboard.js`.

Conventions of the embedding:
* JavaScript strings are Lean `String`s; the JS string primitives that the
  code uses (`startsWith`, `trim`, `toLowerCase`, `substring`, `split`) are
  embedded as structurally recursive functions over `String.data` so that
  concrete instances evaluate by `decide`.  JS `length` (UTF-16 units) is
  modelled by the character count, which agrees on the ASCII data the
  program manipulates.
* The WHATWG `new URL` constructor is modelled by `newURL`, restricted to
  the http/https absolute URLs this program feeds it (see its
  doc-comment); `none` models the constructor throwing.
* Each network interaction (title fetch, summary fetch, store insert) is a
  suspension point whose outcome is an explicit parameter of the embedded
  operation; stateful React `useState` setters become explicit state
  passing on `DashState`, and the observable actions of one `addBookmark`
  invocation are recorded in an `Event` trace in program order.
-/

/-- JS `s.startsWith(p)`, embedded as a list-prefix test on the characters. -/
def jsStartsWith (s p : String) : Bool :=
  List.isPrefixOf p.data s.data

/-- JS `s.trim()`: strip leading and trailing whitespace characters. -/
def jsTrim (s : String) : String :=
  String.mk (((s.data.dropWhile Char.isWhitespace).reverse.dropWhile
    Char.isWhitespace).reverse)

/-- JS `s.toLowerCase()` on the ASCII strings the program handles. -/
def jsToLower (s : String) : String :=
  String.mk (s.data.map Char.toLower)

/-- JS `s.substring(0, n)`. -/
def jsSubstring0 (s : String) (n : Nat) : String :=
  String.mk (s.data.take n)

/-- Character-level worker for JS `s.split(',')`. -/
def splitCommaChars : List Char → List (List Char)
  | [] => [[]]
  | c :: rest =>
    let r := splitCommaChars rest
    if c = ',' then [] :: r
    else
      match r with
      | [] => [[c]]
      | g :: gs => (c :: g) :: gs

/-- JS `s.split(',')` (in particular `"".split(',') = [""]`). -/
def jsSplitComma (s : String) : List String :=
  (splitCommaChars s.data).map String.mk

/-- The result object of a successful `new URL(s)` call: the pieces of it
this program reads (`url.href` and `url.hostname`). -/
structure URLObj where
  href : String
  hostname : String
deriving Repr, DecidableEq

/-- Model of the WHATWG `new URL` constructor as exercised by this program,
restricted to http/https absolute URLs: it succeeds exactly on strings of
the form `http://…` / `https://…` with a nonempty authority, hostname is
the authority up to the first `/`, `:`, `?` or `#`, and href gets a `/`
appended when the part after the scheme contains no slash (matching the
constructor's normalization of a bare host).  `none` models the
constructor throwing on any other input.  Inputs whose real parse involves
userinfo, ports, query-only paths or non-http schemes are outside the
model and are not used in any theorem below. -/
def newURL (s : String) : Option URLObj :=
  let afterScheme : Option (List Char) :=
    if jsStartsWith s "https://" then some (s.data.drop 8)
    else if jsStartsWith s "http://" then some (s.data.drop 7)
    else none
  match afterScheme with
  | none => none
  | some rest =>
    let host := rest.takeWhile (fun c => !(c == '/' || c == ':' || c == '?' || c == '#'))
    if host.isEmpty then none
    else
      some { href := if rest.any (fun c => c == '/') then s else s ++ "/",
             hostname := String.mk host }

/-- Outcome of one HTTP round trip of the summary fetcher
(`fetch` + `response.text()` in `generateSummary`, utils.js:13-28):
either the whole exchange threw, or a response arrived with `ok` flag,
numeric status, and body text. -/
inductive FetchOutcome where
  | failure
  | response (ok : Bool) (status : Nat) (body : String)
deriving Repr, DecidableEq

/-- The URL that `generateSummary` requests (utils.js:5-13): the input with
`https://` prepended unless it starts with `http://` or `https://`,
embedded in the Jina reader endpoint path. -/
def summaryCleanUrl (url : String) : String :=
  if !(jsStartsWith url "http://") && !(jsStartsWith url "https://") then
    "https://" ++ url
  else url

/-- The full request target of the summary fetcher (utils.js:13). -/
def summaryRequestUrl (url : String) : String :=
  "https://r.jina.ai/" ++ summaryCleanUrl url

/-- `generateSummary` (utils.js:2-46), as a function of the outcome of its
single HTTP exchange.  The surrounding try/catch converts any exception
into the generic fallback (`.failure`); a non-ok response yields the
status-bearing fallback; a body that is falsy or shorter than 10
characters (checked on the raw, untrimmed body) yields the generic
fallback; otherwise the trimmed body, truncated to 400 characters plus an
ellipsis when longer than 400. -/
def generateSummary (outcome : FetchOutcome) : String :=
  match outcome with
  | .failure => "Unable to generate summary for this URL."
  | .response ok status body =>
    if !ok then
      "Unable to generate summary for this URL. (Status: " ++ toString status ++ ")"
    else if body.length < 10 then
      "Unable to generate summary for this URL."
    else
      let cleanSummary := jsTrim body
      if cleanSummary.length > 400 then
        jsSubstring0 cleanSummary 400 ++ "..."
      else
        cleanSummary

/-- `getFaviconUrl` (utils.js:49-56): derive the icon URL from the
hostname; fall back to the local default when `new URL` throws. -/
def getFaviconUrl (url : String) : String :=
  match newURL url with
  | some urlObj =>
      "https://www.google.com/s2/favicons?domain=" ++ urlObj.hostname ++ "&sz=32"
  | none => "/favicon.ico"

/-- Outcome of the title fetcher's HTTP exchange
(`fetch` + `response.json()` in `getPageTitle`, utils.js:61-62): either the
exchange threw, or JSON arrived whose optional `title` field is carried
here (`none` for an absent field; `some ""` is equally falsy in JS). -/
inductive TitleFetchOutcome where
  | failure
  | success (titleField : Option String)
deriving Repr, DecidableEq

/-- `getPageTitle` (utils.js:59-67).  `Except Unit String` models the
promise: `.ok` a resolution, `.error` a rejection that escapes the
function.  On a truthy `title` field, that title; otherwise
`new URL(url).hostname` — and when that constructor call itself throws
(unparseable `url`), the `catch` block's own `new URL(url).hostname`
throws again and escapes the function, modelled by `.error ()`. -/
def getPageTitle (url : String) (outcome : TitleFetchOutcome) : Except Unit String :=
  match outcome with
  | .failure =>
      match newURL url with
      | some u => .ok u.hostname
      | none => .error ()
  | .success titleField =>
      let t := titleField.getD ""
      if t.length > 0 then .ok t
      else
        match newURL url with
        | some u => .ok u.hostname
        | none => .error ()

/-- One entry of the Dashboard's in-memory `bookmarks` state
(Dashboard.js:12): persisted rows and optimistic placeholders share this
shape; placeholders carry `isLoading := true` (Dashboard.js:84-93),
persisted rows have it absent, modelled as `false`. -/
structure Bookmark where
  id : Nat
  url : String
  title : String
  summary : String
  favicon : String
  tags : List String
  created_at : String
  isLoading : Bool := false
deriving Repr, DecidableEq

/-- The tag-processing step of `addBookmark` (Dashboard.js:77-80): split on
commas, trim, lowercase, drop empty segments. -/
def parseTags (tagsToSave : String) : List String :=
  ((jsSplitComma tagsToSave).map (fun tag => jsToLower (jsTrim tag))).filter
    (fun tag => tag.length > 0)

/-- The derived set of available tags (Dashboard.js:48-57): every tag of
every bookmark, first occurrence kept, in traversal order (JS `Set`
insertion order). -/
def availableTags (bookmarks : List Bookmark) : List String :=
  (bookmarks.flatMap (fun bookmark => bookmark.tags)).eraseDups

/-- `toggleTagFilter` (Dashboard.js:162-168): remove the tag from the
selected-tag list when present, append it when absent. -/
def toggleTagFilter (selectedTags : List String) (tag : String) : List String :=
  if selectedTags.contains tag then
    selectedTags.filter (fun t => t != tag)
  else
    selectedTags ++ [tag]

/-- `filteredBookmarks` (Dashboard.js:175-179): everything when no tag is
selected, otherwise the bookmarks some of whose tags is selected.  (The
source's `bookmark.tags &&` null-guard is vacuous here because `tags` is
always a list in the model, `[]` standing for an absent array.) -/
def filteredBookmarks (selectedTags : List String) (bookmarks : List Bookmark) :
    List Bookmark :=
  if selectedTags.length = 0 then bookmarks
  else
    bookmarks.filter (fun bookmark =>
      bookmark.tags.any (fun tag => selectedTags.contains tag))

/-- The success-path reconciliation of `addBookmark` (Dashboard.js:120-122):
the functional update `prev.map (b => b.id === tempId ? data[0] : b)`. -/
def swapPlaceholder (tempId : Nat) (row : Bookmark) (prev : List Bookmark) :
    List Bookmark :=
  prev.map (fun bookmark => if bookmark.id = tempId then row else bookmark)

/-- The failure-path reconciliation of `addBookmark` (Dashboard.js:133):
the functional update `prev.filter (b => !b.isLoading)`. -/
def removePlaceholderOnError (prev : List Bookmark) : List Bookmark :=
  prev.filter (fun bookmark => !bookmark.isLoading)

/-- The URL-normalization step of `addBookmark` (Dashboard.js:74): the raw
input is handed to `new URL` unchanged when it starts with `"http"`, and
with `https://` prepended otherwise. -/
def dashNormalizeInput (urlToSave : String) : String :=
  if jsStartsWith urlToSave "http" then urlToSave else "https://" ++ urlToSave

/-- The spec's notion of a recognized scheme prefix, for comparison with
`dashNormalizeInput`.  Follows the spec's words: the recognized schemes of
this program are `http` and `https`, written as URL scheme prefixes. -/
def specHasRecognizedScheme (raw : String) : Bool :=
  jsStartsWith raw "http://" || jsStartsWith raw "https://"

/-- The row handed to the store insert (Dashboard.js:105-114). -/
structure InsertRow where
  user_id : String
  url : String
  title : String
  summary : String
  favicon : String
  tags : List String
deriving Repr, DecidableEq

/-- The slice of Dashboard component state that `addBookmark` reads and
writes (Dashboard.js:12-19). -/
structure DashState where
  bookmarks : List Bookmark
  newUrl : String
  newTags : String
  error : String
  saving : Bool
deriving Repr, DecidableEq

/-- Environment of one `addBookmark` invocation: the values produced at
its suspension points and ambient calls — `Date.now()` (tempId),
`new Date().toISOString()` (nowIso), the current user's id, the outcome of
each fetcher's HTTP exchange, and the store's response to an insert. -/
structure AddEnv where
  tempId : Nat
  nowIso : String
  userId : String
  titleOutcome : TitleFetchOutcome
  summaryOutcome : FetchOutcome
  store : InsertRow → Except Unit Bookmark

/-- Observable actions of one `addBookmark` invocation, in program order.
`placeholderShown` carries the placeholder and the list state made visible
at that point (Dashboard.js:95); `storeInsertStarted` carries the inserted
row (Dashboard.js:103-115). -/
inductive Event where
  | placeholderShown (placeholder : Bookmark) (shownList : List Bookmark)
  | titleFetchStarted
  | summaryFetchStarted
  | fetchersSettled
  | storeInsertStarted (row : InsertRow)
  | storeInsertConfirmed
  | placeholderSwapped (tempId : Nat)
  | errorSurfaced (msg : String)
  | placeholdersRemoved
deriving Repr, DecidableEq

/-- The settled value of the title fetch at the `Promise.all` join
(Dashboard.js:99): `getPageTitle(url.href).catch(() => url.href)`. -/
def settledTitle (href : String) (outcome : TitleFetchOutcome) : String :=
  match getPageTitle href outcome with
  | .ok title => title
  | .error _ => href

/-- The optimistic placeholder built by `addBookmark`
(Dashboard.js:83-93), given the parsed URL and processed tags. -/
def placeholderBookmark (env : AddEnv) (url : URLObj) (tags : List String) :
    Bookmark :=
  { id := env.tempId, url := url.href, title := "Loading...",
    summary := "Generating summary...", favicon := getFaviconUrl url.href,
    tags := tags, created_at := env.nowIso, isLoading := true }

/-- The row `addBookmark` hands to the store insert (Dashboard.js:105-114),
carrying the settled fetcher values. -/
def insertedRow (env : AddEnv) (url : URLObj) (tags : List String) :
    InsertRow :=
  { user_id := env.userId, url := url.href,
    title := settledTitle url.href env.titleOutcome,
    summary := generateSummary env.summaryOutcome,
    favicon := getFaviconUrl url.href, tags := tags }

/-- `addBookmark` (Dashboard.js:59-137) as one invocation from state `s0`
under environment `env`, returning the final state and the event trace.
The empty-input guard (line 61) returns before touching any state; the
`catch` block (lines 124-133) covers both an invalid URL and a store
failure; the `finally` (line 135) clears `saving`.  The call-site `.catch`
on `generateSummary` (line 100) is dead in the model because
`generateSummary` is total. -/
def addBookmark (s0 : DashState) (env : AddEnv) : DashState × List Event :=
  if (jsTrim s0.newUrl).length = 0 then (s0, [])
  else
    let urlToSave := s0.newUrl
    let tagsToSave := s0.newTags
    let s1 : DashState :=
      { s0 with saving := true, error := "", newUrl := "", newTags := "" }
    match newURL (dashNormalizeInput urlToSave) with
    | none =>
        (⟨removePlaceholderOnError s1.bookmarks, urlToSave, tagsToSave,
          "Failed to add bookmark. Please check the URL.", false⟩,
         [Event.errorSurfaced "Failed to add bookmark. Please check the URL.",
          Event.placeholdersRemoved])
    | some url =>
        let tags := parseTags tagsToSave
        let placeholder := placeholderBookmark env url tags
        let shown := placeholder :: s1.bookmarks
        let row := insertedRow env url tags
        let prefixEvents :=
          [Event.placeholderShown placeholder shown, Event.titleFetchStarted,
           Event.summaryFetchStarted, Event.fetchersSettled,
           Event.storeInsertStarted row]
        match env.store row with
        | .error _ =>
            (⟨removePlaceholderOnError shown, urlToSave, tagsToSave,
              "Failed to add bookmark. Please check the URL.", false⟩,
             prefixEvents ++
               [Event.errorSurfaced "Failed to add bookmark. Please check the URL.",
                Event.placeholdersRemoved])
        | .ok stored =>
            (⟨swapPlaceholder env.tempId stored shown, "", "", "", false⟩,
             prefixEvents ++
               [Event.storeInsertConfirmed, Event.placeholderSwapped env.tempId])

/-- JS `findIndex`: index of the first match, `-1` when there is none. -/
def jsFindIndex (l : List Bookmark) (p : Bookmark → Bool) : Int :=
  match l.findIdx? p with
  | some n => (n : Int)
  | none => -1

/-- JS `Array.prototype.splice` start-index normalization: negative
indices count from the end, clamped to `[0, len]`. -/
def jsSpliceStart (len : Nat) (start : Int) : Nat :=
  if start < 0 then ((len : Int) + start).toNat else min start.toNat len

/-- JS `arr.splice(start, 1)`: the array with one element removed at the
normalized index, together with that element (`none` when the normalized
index is past the end, in which case nothing is removed). -/
def jsSpliceRemoveOne (l : List Bookmark) (start : Int) :
    List Bookmark × Option Bookmark :=
  match l.drop (jsSpliceStart l.length start) with
  | [] => (l, none)
  | x :: _ =>
      (l.take (jsSpliceStart l.length start) ++
        l.drop (jsSpliceStart l.length start + 1), some x)

/-- JS `arr.splice(start, 0, x)`: insert `x` at the normalized index. -/
def jsSpliceInsert (l : List Bookmark) (start : Int) (x : Bookmark) :
    List Bookmark :=
  l.take (jsSpliceStart l.length start) ++
    x :: l.drop (jsSpliceStart l.length start)

/-- `handleDrop` (Dashboard.js:192-209), returning the new value of the
`bookmarks` state.  It looks both items up in `filteredBookmarks`, copies
that filtered array, splices the dragged item out and back in at the
target's index, and stores the result as the whole `bookmarks` state.
(The unreachable corner where the filtered view is empty — the drop target
is always an element of it — would in JS splice `undefined` into the
array; the model leaves the copy unchanged there.) -/
def handleDrop (selectedTags : List String) (bookmarks : List Bookmark)
    (draggedItem : Option Bookmark) (targetBookmark : Bookmark) :
    List Bookmark :=
  match draggedItem with
  | none => bookmarks
  | some dragged =>
    if dragged.id = targetBookmark.id then bookmarks
    else
      let filtered := filteredBookmarks selectedTags bookmarks
      let draggedIndex := jsFindIndex filtered (fun b => b.id == dragged.id)
      let targetIndex := jsFindIndex filtered (fun b => b.id == targetBookmark.id)
      match jsSpliceRemoveOne filtered draggedIndex with
      | (rest, some moved) => jsSpliceInsert rest targetIndex moved
      | (rest, none) => rest

/-! ## Verification -/

/-- The character count of a string built from an explicit character list. -/
theorem stringMk_length (l : List Char) : (String.mk l).length = l.length := rfl

/-- A run of letters has no leading or trailing whitespace, so `jsTrim`
leaves it unchanged. -/
theorem jsTrim_replicate_a (n : Nat) :
    jsTrim (String.mk (List.replicate n 'a')) = String.mk (List.replicate n 'a') := by
  have hws : Char.isWhitespace 'a' = false := by decide
  have hdrop : List.dropWhile Char.isWhitespace (List.replicate n 'a') =
      List.replicate n 'a' := by
    cases n with
    | zero => rfl
    | succ m => simp [List.replicate_succ, List.dropWhile_cons, hws]
  simp [jsTrim, hdrop, List.reverse_replicate]

/-- C3: for every summary-fetch outcome, `generateSummary` returns a
fallback message containing the HTTP status code when the response status
is non-success; the generic fallback when the body is shorter than 10
characters or when any network/parse exception occurs; otherwise the
trimmed body, truncated to exactly 400 characters plus an ellipsis marker
when the trimmed body exceeds 400 characters, and unchanged when it does
not. -/
theorem generateSummary_policy (status : Nat) (body : String) :
    generateSummary .failure = "Unable to generate summary for this URL."
  ∧ generateSummary (.response false status body) =
      "Unable to generate summary for this URL. (Status: " ++ toString status ++ ")"
  ∧ (∃ pre post,
      generateSummary (.response false status body) = pre ++ toString status ++ post)
  ∧ (body.length < 10 →
      generateSummary (.response true status body) =
        "Unable to generate summary for this URL.")
  ∧ (¬ body.length < 10 → (jsTrim body).length > 400 →
      generateSummary (.response true status body) =
          jsSubstring0 (jsTrim body) 400 ++ "..."
        ∧ (jsSubstring0 (jsTrim body) 400).length = 400)
  ∧ (¬ body.length < 10 → ¬ (jsTrim body).length > 400 →
      generateSummary (.response true status body) = jsTrim body) := by
  refine ⟨rfl, rfl, ⟨"Unable to generate summary for this URL. (Status: ", ")", rfl⟩,
    ?_, ?_, ?_⟩
  · intro hshort
    simp [generateSummary, hshort]
  · intro hlong htrim
    constructor
    · simp [generateSummary, hlong, htrim]
    · show (jsSubstring0 (jsTrim body) 400).length = 400
      unfold jsSubstring0
      rw [stringMk_length, List.length_take]
      have hdl : (jsTrim body).data.length = (jsTrim body).length := rfl
      rw [hdl]
      omega
  · intro hlong htrim
    simp [generateSummary, hlong, htrim]

/-- Witness for `generateSummary_policy` at a 500-character body: the
hypotheses of the truncation case hold and the result is the 400-character
prefix plus the ellipsis marker. -/
theorem generateSummary_policy_witness :
    ¬ (String.mk (List.replicate 500 'a')).length < 10
  ∧ (jsTrim (String.mk (List.replicate 500 'a'))).length > 400
  ∧ (generateSummary (.response true 404 (String.mk (List.replicate 500 'a'))) =
        jsSubstring0 (jsTrim (String.mk (List.replicate 500 'a'))) 400 ++ "..."
      ∧ (jsSubstring0 (jsTrim (String.mk (List.replicate 500 'a'))) 400).length = 400) := by
  have h1 : ¬ (String.mk (List.replicate 500 'a')).length < 10 := by
    rw [stringMk_length, List.length_replicate]
    omega
  have h2 : (jsTrim (String.mk (List.replicate 500 'a'))).length > 400 := by
    rw [jsTrim_replicate_a, stringMk_length, List.length_replicate]
    omega
  exact ⟨h1, h2,
    (generateSummary_policy 404 (String.mk (List.replicate 500 'a'))).2.2.2.2.1 h1 h2⟩

/-- C10: the shorter-than-10-characters check of `generateSummary` reads
the raw response body, before trimming: a body of length at least 10 whose
trimmed form is shorter than 10 characters is returned trimmed — possibly
empty — rather than replaced by the fallback. -/
theorem generateSummary_checksRawLength (status : Nat) (body : String)
    (hlen : ¬ body.length < 10) (htrim : (jsTrim body).length < 10) :
    generateSummary (.response true status body) = jsTrim body := by
  have hnot : ¬ (jsTrim body).length > 400 := by omega
  simp [generateSummary, hlen, hnot]

/-- Witness for `generateSummary_checksRawLength` at a body of 12 spaces:
the result is the trimmed body, which is the empty string. -/
theorem generateSummary_checksRawLength_witness :
    ¬ (String.mk (List.replicate 12 ' ')).length < 10
  ∧ (jsTrim (String.mk (List.replicate 12 ' '))).length < 10
  ∧ generateSummary (.response true 200 (String.mk (List.replicate 12 ' '))) =
      jsTrim (String.mk (List.replicate 12 ' '))
  ∧ jsTrim (String.mk (List.replicate 12 ' ')) = "" :=
  ⟨by decide, by decide,
    generateSummary_checksRawLength 200 (String.mk (List.replicate 12 ' '))
      (by decide) (by decide), by decide⟩

/-- A bookmark tagged `{a}`, for the filter-semantics examples. -/
def exTagA : Bookmark :=
  { id := 1, url := "https://a.com/", title := "A", summary := "sa",
    favicon := "fa", tags := ["a"], created_at := "c1" }

/-- A bookmark tagged `{b}`. -/
def exTagB : Bookmark :=
  { id := 2, url := "https://b.com/", title := "B", summary := "sb",
    favicon := "fb", tags := ["b"], created_at := "c2" }

/-- A bookmark tagged `{a, b}`. -/
def exTagAB : Bookmark :=
  { id := 3, url := "https://ab.com/", title := "AB", summary := "sab",
    favicon := "fab", tags := ["a", "b"], created_at := "c3" }

/-- A bookmark with no tags. -/
def exTagNone : Bookmark :=
  { id := 4, url := "https://n.com/", title := "N", summary := "sn",
    favicon := "fn", tags := [], created_at := "c4" }

/-- C8: the filtered view contains every bookmark when the filter set is
empty, and otherwise exactly the bookmarks whose tag set intersects the
filter set (union, not intersection); on bookmarks tagged `{a}`, `{b}`,
`{a,b}`, `{}`, filter `{a}` yields the first and third, filter `{a,b}`
the first three, and the empty filter all four. -/
theorem filteredBookmarks_semantics (selectedTags : List String)
    (bookmarks : List Bookmark) :
    (selectedTags = [] → filteredBookmarks selectedTags bookmarks = bookmarks)
  ∧ (selectedTags ≠ [] → ∀ b, b ∈ filteredBookmarks selectedTags bookmarks ↔
        b ∈ bookmarks ∧ ∃ t ∈ b.tags, t ∈ selectedTags)
  ∧ filteredBookmarks ["a"] [exTagA, exTagB, exTagAB, exTagNone] = [exTagA, exTagAB]
  ∧ filteredBookmarks ["a", "b"] [exTagA, exTagB, exTagAB, exTagNone] =
      [exTagA, exTagB, exTagAB]
  ∧ filteredBookmarks [] [exTagA, exTagB, exTagAB, exTagNone] =
      [exTagA, exTagB, exTagAB, exTagNone] := by
  refine ⟨?_, ?_, by decide, by decide, by decide⟩
  · intro h
    subst h
    simp [filteredBookmarks]
  · intro h b
    have hlen : ¬ selectedTags.length = 0 := by
      simpa [List.length_eq_zero] using h
    simp [filteredBookmarks, hlen, List.mem_filter, List.any_eq_true]

/-- Witness for `filteredBookmarks_semantics`: on the example list with
filter `{a}`, the `{a,b}`-tagged bookmark is in the view because its tag
set intersects the filter. -/
theorem filteredBookmarks_semantics_witness :
    exTagAB ∈ filteredBookmarks ["a"] [exTagA, exTagB, exTagAB, exTagNone] ↔
      exTagAB ∈ [exTagA, exTagB, exTagAB, exTagNone] ∧
        ∃ t ∈ exTagAB.tags, t ∈ (["a"] : List String) :=
  (filteredBookmarks_semantics ["a"] [exTagA, exTagB, exTagAB, exTagNone]).2.1
    (by decide) exTagAB

/-- C9 counterexample: the claim says a toggle of a tag outside the
derived available-tag set has no effect on the active filter set, but
`toggleTagFilter` never consults the derived set: with a single bookmark
tagged `{a}`, the tag `x` is not available, yet toggling it changes the
empty filter-set to `[x]`. -/
theorem toggleTagFilter_foreign_counterexample :
    ¬ ("x" ∈ availableTags [exTagA])
  ∧ toggleTagFilter [] "x" = ["x"]
  ∧ toggleTagFilter [] "x" ≠ [] := by
  refine ⟨by decide, by decide, by decide⟩

/-- C9 amended: `toggleTagFilter tag` removes the tag from the active
filter set when present and appends it when absent, toggling exactly that
tag's membership and preserving every other tag's membership — for any
tag, whether or not it occurs in the derived available-tag set (the UI
only ever invokes it with available tags). -/
theorem toggleTagFilter_toggles (selectedTags : List String) (tag : String) :
    (tag ∈ toggleTagFilter selectedTags tag ↔ tag ∉ selectedTags)
  ∧ (∀ other, other ≠ tag →
      (other ∈ toggleTagFilter selectedTags tag ↔ other ∈ selectedTags)) := by
  by_cases h : selectedTags.contains tag
  · have hmem : tag ∈ selectedTags := by simpa using h
    constructor
    · simp [toggleTagFilter, h, List.mem_filter, hmem]
    · intro other hne
      simp [toggleTagFilter, h, hmem, List.mem_filter, hne]
  · have hmem : tag ∉ selectedTags := by simpa using h
    constructor
    · simp [toggleTagFilter, h, hmem]
    · intro other hne
      simp [toggleTagFilter, h, hmem, hne]

/-- Witness for `toggleTagFilter_toggles`: toggling `b` on the filter set
`[a]` leaves membership of `a` unchanged. -/
theorem toggleTagFilter_toggles_witness :
    "a" ∈ toggleTagFilter ["a"] "b" ↔ "a" ∈ (["a"] : List String) :=
  (toggleTagFilter_toggles ["a"] "b").2 "a" (by decide)

/-- C7 counterexample: the claim quantifies over every input URL, but
`getPageTitle` can throw past its own boundary — on an input the URL
constructor rejects, a failed fetch reaches the `catch` block, whose own
`new URL(url).hostname` call throws again and escapes the function. -/
theorem getPageTitle_throws_counterexample :
    getPageTitle "nonsense" TitleFetchOutcome.failure = Except.error () := rfl

/-- C7 amended: given a URL the URL constructor accepts (in particular
every normalized URL), `getPageTitle` always resolves, returning the page
title when the response carries a truthy one and the URL's hostname on
fetch failure or a missing title; and `generateSummary` converts any
exception into its generic fallback string.  Only on a URL the
constructor rejects can a failure make `getPageTitle` itself reject
(which the orchestrator's call-site catch absorbs). -/
theorem metadataFetchers_resolve (url : String) (u : URLObj)
    (h : newURL url = some u) :
    (∀ outcome, ∃ title, getPageTitle url outcome = .ok title)
  ∧ getPageTitle url .failure = .ok u.hostname
  ∧ getPageTitle url (.success none) = .ok u.hostname
  ∧ (∀ t, t.length > 0 → getPageTitle url (.success (some t)) = .ok t)
  ∧ generateSummary .failure = "Unable to generate summary for this URL." := by
  refine ⟨?_, ?_, ?_, ?_, rfl⟩
  · intro outcome
    match outcome with
    | .failure => exact ⟨u.hostname, by simp [getPageTitle, h]⟩
    | .success none => exact ⟨u.hostname, by simp [getPageTitle, h]⟩
    | .success (some t) =>
        by_cases ht : t.length > 0
        · exact ⟨t, by simp [getPageTitle, ht]⟩
        · exact ⟨u.hostname, by simp [getPageTitle, ht, h]⟩
  · simp [getPageTitle, h]
  · simp [getPageTitle, h]
  · intro t ht
    simp [getPageTitle, ht]

/-- Witness for `metadataFetchers_resolve` at the normalized URL
`https://example.com/`: a failing title fetch resolves to the hostname. -/
theorem metadataFetchers_resolve_witness :
    getPageTitle "https://example.com/" .failure = .ok "example.com" :=
  (metadataFetchers_resolve "https://example.com/"
    ⟨"https://example.com/", "example.com"⟩ (by decide)).2.1

/-- `splice(start, 1)` either removes nothing (leaving the array intact)
or removes one element, and the original array is a permutation of that
element put back on top of the remainder. -/
theorem jsSpliceRemoveOne_spec (l : List Bookmark) (start : Int) :
    ((jsSpliceRemoveOne l start).2 = none ∧ (jsSpliceRemoveOne l start).1 = l)
  ∨ (∃ m, (jsSpliceRemoveOne l start).2 = some m ∧
      l.Perm (m :: (jsSpliceRemoveOne l start).1)) := by
  unfold jsSpliceRemoveOne
  split
  next hd => exact Or.inl ⟨rfl, rfl⟩
  next x xs hd =>
    refine Or.inr ⟨x, rfl, ?_⟩
    have hxs : l.drop (jsSpliceStart l.length start + 1) = xs := by
      rw [← List.drop_drop, hd]
      rfl
    have hsplit : l = l.take (jsSpliceStart l.length start) ++
        (x :: l.drop (jsSpliceStart l.length start + 1)) := by
      rw [hxs, ← hd, List.take_append_drop]
    have hmid : (l.take (jsSpliceStart l.length start) ++
        (x :: l.drop (jsSpliceStart l.length start + 1))).Perm
        (x :: (l.take (jsSpliceStart l.length start) ++
          l.drop (jsSpliceStart l.length start + 1))) := List.perm_middle
    rw [← hsplit] at hmid
    exact hmid

/-- `splice(start, 0, x)` produces a permutation of pushing `x` on top. -/
theorem jsSpliceInsert_perm (l : List Bookmark) (start : Int) (x : Bookmark) :
    (jsSpliceInsert l start x).Perm (x :: l) := by
  unfold jsSpliceInsert
  have hmid : (l.take (jsSpliceStart l.length start) ++
      (x :: l.drop (jsSpliceStart l.length start))).Perm
      (x :: (l.take (jsSpliceStart l.length start) ++
        l.drop (jsSpliceStart l.length start))) := List.perm_middle
  rw [List.take_append_drop] at hmid
  exact hmid

/-- C5 counterexample: with the tag filter `{a}` active over bookmarks
tagged `{a}`, `{b}`, `{a,b}`, dropping the third bookmark onto the first
stores a permutation of the filtered view as the whole list — the
`{b}`-only bookmark is silently dropped, so the result is not a
permutation of the full in-memory sequence that existed before. -/
theorem handleDrop_filtered_counterexample :
    handleDrop ["a"] [exTagA, exTagB, exTagAB] (some exTagAB) exTagA =
      [exTagAB, exTagA]
  ∧ ¬ (handleDrop ["a"] [exTagA, exTagB, exTagAB] (some exTagAB) exTagA).Perm
      [exTagA, exTagB, exTagAB] := by
  have hres : handleDrop ["a"] [exTagA, exTagB, exTagAB] (some exTagAB) exTagA =
      [exTagAB, exTagA] := by decide
  refine ⟨hres, ?_⟩
  intro hperm
  have hlen := hperm.length_eq
  rw [hres] at hlen
  simp at hlen

/-- C5 amended: when no tag filter is active, a drop operation rearranges
the full in-memory list into a permutation of itself (same bookmarks,
positions only changed), and it involves no store call (its embedding is
a pure function of the in-memory state); when a filter is active the
store is still untouched, but the full list is replaced by a permutation
of the filtered view, losing the bookmarks outside the filter. -/
theorem handleDrop_unfiltered_perm (bookmarks : List Bookmark)
    (draggedItem : Option Bookmark) (targetBookmark : Bookmark) :
    (handleDrop [] bookmarks draggedItem targetBookmark).Perm bookmarks := by
  cases draggedItem with
  | none => simp [handleDrop]
  | some dragged =>
      by_cases hid : dragged.id = targetBookmark.id
      · simp [handleDrop, hid]
      · have hfilter : filteredBookmarks [] bookmarks = bookmarks := by
          simp [filteredBookmarks]
        have hspec := jsSpliceRemoveOne_spec bookmarks
          (jsFindIndex bookmarks (fun b => b.id == dragged.id))
        simp only [handleDrop, hid, if_false, hfilter]
        cases hsplice : jsSpliceRemoveOne bookmarks
            (jsFindIndex bookmarks (fun b => b.id == dragged.id)) with
        | mk rest moved =>
          rw [hsplice] at hspec
          cases moved with
          | none =>
              simp only at hspec ⊢
              rcases hspec with ⟨_, hsame⟩ | ⟨m, hsome, _⟩
              · rw [hsame]
              · exact absurd hsome (by simp)
          | some m =>
              simp only at hspec ⊢
              rcases hspec with ⟨hnone, _⟩ | ⟨m2, hsome, hperm⟩
              · exact absurd hnone (by simp)
              · have hm : m2 = m := by
                  have := hsome
                  simp only [Option.some.injEq] at this
                  exact this.symm
                exact (jsSpliceInsert_perm rest
                  (jsFindIndex bookmarks (fun b => b.id == targetBookmark.id)) m).trans
                  (hm ▸ hperm).symm

/-- A persisted (non-loading) bookmark for the `addBookmark` scenarios. -/
def exPersisted : Bookmark :=
  { id := 1, url := "https://old.com/", title := "Old", summary := "os",
    favicon := "of", tags := ["a"], created_at := "t0" }

/-- Another invocation's in-flight optimistic placeholder. -/
def exForeignPlaceholder : Bookmark :=
  { id := 2, url := "https://other.com/", title := "Loading...",
    summary := "Generating summary...", favicon := "fo", tags := [],
    created_at := "t1", isLoading := true }

/-- The authoritative row a successful store insert returns. -/
def exStored : Bookmark :=
  { id := 50, url := "https://example.com/", title := "Example",
    summary := "sum", favicon := "fav", tags := ["a", "b"], created_at := "t2" }

/-- Dashboard state at the start of a call, while another invocation's
placeholder is still in flight. -/
def exState : DashState :=
  { bookmarks := [exForeignPlaceholder, exPersisted], newUrl := "example.com",
    newTags := "a,b", error := "", saving := false }

/-- Dashboard state at the start of a call with no placeholder in flight. -/
def exCleanState : DashState :=
  { bookmarks := [exPersisted], newUrl := "example.com", newTags := "a,b",
    error := "", saving := false }

/-- Dashboard state whose raw url input the URL constructor rejects
(`httpbin.org` starts with `http`, so nothing is prepended, and the bare
hostname is not an absolute URL). -/
def exBadState : DashState :=
  { bookmarks := [exPersisted], newUrl := "httpbin.org", newTags := "t",
    error := "", saving := false }

/-- Environment in which the store insert fails. -/
def exEnvFail : AddEnv :=
  { tempId := 7, nowIso := "now", userId := "user-1", titleOutcome := .failure,
    summaryOutcome := .failure, store := fun _ => .error () }

/-- Environment in which the store insert succeeds with `exStored`. -/
def exEnvOk : AddEnv :=
  { tempId := 7, nowIso := "now", userId := "user-1", titleOutcome := .failure,
    summaryOutcome := .failure, store := fun _ => .ok exStored }

/-- Run lemma: an invocation whose raw input the URL constructor rejects
takes the catch path — error set, inputs restored, every loading entry
filtered out, and only the error events in the trace. -/
theorem addBookmark_invalidUrl_run (s0 : DashState) (env : AddEnv)
    (hne : ¬ (jsTrim s0.newUrl).length = 0)
    (hfail : newURL (dashNormalizeInput s0.newUrl) = none) :
    addBookmark s0 env =
      (⟨removePlaceholderOnError s0.bookmarks, s0.newUrl, s0.newTags,
        "Failed to add bookmark. Please check the URL.", false⟩,
       [Event.errorSurfaced "Failed to add bookmark. Please check the URL.",
        Event.placeholdersRemoved]) := by
  unfold addBookmark
  rw [if_neg hne]
  simp only [hfail]

/-- Run lemma: an invocation that passes normalization but whose store
insert fails ends on the catch path after the full fetch prefix. -/
theorem addBookmark_storeFailure_run (s0 : DashState) (env : AddEnv) (u : URLObj)
    (hne : ¬ (jsTrim s0.newUrl).length = 0)
    (hurl : newURL (dashNormalizeInput s0.newUrl) = some u)
    (hstore : env.store (insertedRow env u (parseTags s0.newTags)) = .error ()) :
    addBookmark s0 env =
      (⟨removePlaceholderOnError
          (placeholderBookmark env u (parseTags s0.newTags) :: s0.bookmarks),
        s0.newUrl, s0.newTags,
        "Failed to add bookmark. Please check the URL.", false⟩,
       [Event.placeholderShown (placeholderBookmark env u (parseTags s0.newTags))
          (placeholderBookmark env u (parseTags s0.newTags) :: s0.bookmarks),
        Event.titleFetchStarted, Event.summaryFetchStarted, Event.fetchersSettled,
        Event.storeInsertStarted (insertedRow env u (parseTags s0.newTags)),
        Event.errorSurfaced "Failed to add bookmark. Please check the URL.",
        Event.placeholdersRemoved]) := by
  unfold addBookmark
  rw [if_neg hne]
  simp only [hurl, hstore, List.cons_append, List.nil_append]

/-- Run lemma: an invocation that passes normalization and whose store
insert succeeds swaps the placeholder for the stored row. -/
theorem addBookmark_storeSuccess_run (s0 : DashState) (env : AddEnv)
    (u : URLObj) (stored : Bookmark)
    (hne : ¬ (jsTrim s0.newUrl).length = 0)
    (hurl : newURL (dashNormalizeInput s0.newUrl) = some u)
    (hstore : env.store (insertedRow env u (parseTags s0.newTags)) = .ok stored) :
    addBookmark s0 env =
      (⟨swapPlaceholder env.tempId stored
          (placeholderBookmark env u (parseTags s0.newTags) :: s0.bookmarks),
        "", "", "", false⟩,
       [Event.placeholderShown (placeholderBookmark env u (parseTags s0.newTags))
          (placeholderBookmark env u (parseTags s0.newTags) :: s0.bookmarks),
        Event.titleFetchStarted, Event.summaryFetchStarted, Event.fetchersSettled,
        Event.storeInsertStarted (insertedRow env u (parseTags s0.newTags)),
        Event.storeInsertConfirmed, Event.placeholderSwapped env.tempId]) := by
  unfold addBookmark
  rw [if_neg hne]
  simp only [hurl, hstore, List.cons_append, List.nil_append]

/-- C1 counterexample: the failure path removes every loading entry, not
just this invocation's placeholder — when another invocation's
placeholder is in the list before the call, a failing call does not leave
the list in the state it had before the call. -/
theorem addBookmark_storeFailure_counterexample :
    (addBookmark exState exEnvFail).1.bookmarks = [exPersisted]
  ∧ (addBookmark exState exEnvFail).1.bookmarks ≠ exState.bookmarks := by
  exact ⟨by decide, by decide⟩

/-- C1 amended: provided the list holds no pending placeholder at call
time (no concurrent `addBookmark` in flight), a call whose store insert
fails leaves the in-memory list in exactly the state it had before the
call — the optimistic placeholder is removed and nothing partial
remains — surfaces the generic failed-to-add error, and restores the
original raw url and tag inputs; with a concurrent placeholder present,
the rollback also removes that other placeholder. -/
theorem addBookmark_storeFailure_restores (s0 : DashState) (env : AddEnv)
    (u : URLObj)
    (hne : ¬ (jsTrim s0.newUrl).length = 0)
    (hurl : newURL (dashNormalizeInput s0.newUrl) = some u)
    (hstore : env.store (insertedRow env u (parseTags s0.newTags)) = .error ())
    (hclean : ∀ b ∈ s0.bookmarks, b.isLoading = false) :
    (addBookmark s0 env).1.bookmarks = s0.bookmarks
  ∧ (addBookmark s0 env).1.error = "Failed to add bookmark. Please check the URL."
  ∧ (addBookmark s0 env).1.newUrl = s0.newUrl
  ∧ (addBookmark s0 env).1.newTags = s0.newTags := by
  rw [addBookmark_storeFailure_run s0 env u hne hurl hstore]
  refine ⟨?_, rfl, rfl, rfl⟩
  show removePlaceholderOnError
      (placeholderBookmark env u (parseTags s0.newTags) :: s0.bookmarks) =
    s0.bookmarks
  unfold removePlaceholderOnError
  have hph : (!(placeholderBookmark env u (parseTags s0.newTags)).isLoading) = false :=
    rfl
  rw [List.filter_cons, hph]
  simp only [Bool.false_eq_true, if_false]
  exact List.filter_eq_self.mpr (fun b hb => by rw [hclean b hb]; rfl)

/-- Witness for `addBookmark_storeFailure_restores` on a clean state. -/
theorem addBookmark_storeFailure_restores_witness :
    (addBookmark exCleanState exEnvFail).1.bookmarks = exCleanState.bookmarks
  ∧ (addBookmark exCleanState exEnvFail).1.error =
      "Failed to add bookmark. Please check the URL."
  ∧ (addBookmark exCleanState exEnvFail).1.newUrl = exCleanState.newUrl
  ∧ (addBookmark exCleanState exEnvFail).1.newTags = exCleanState.newTags :=
  addBookmark_storeFailure_restores exCleanState exEnvFail
    ⟨"https://example.com/", "example.com"⟩ (by decide) (by decide) rfl (by decide)

/-- C2 counterexample: even with temporary ids distinct, a failing
invocation's placeholder-removal step does not modify only the entry
bearing its own temporary id — it removes every loading entry, including
another invocation's placeholder. -/
theorem reconciliation_removesAll_counterexample :
    exEnvFail.tempId ≠ exForeignPlaceholder.id
  ∧ exForeignPlaceholder.isLoading = true
  ∧ exForeignPlaceholder ∈ exState.bookmarks
  ∧ exForeignPlaceholder ∉ (addBookmark exState exEnvFail).1.bookmarks := by
  exact ⟨by decide, rfl, by decide, by decide⟩

/-- C2 amended: the success-path swap is positionally frame-exact — it
preserves length, replaces exactly the entries bearing the invocation's
temporary id, and leaves every entry with a different id unchanged in
place; the failure-path removal, however, removes every entry marked
loading — all in-flight placeholders, not only the invocation's own. -/
theorem reconciliation_scope (tempId : Nat) (stored : Bookmark)
    (l : List Bookmark) :
    ((swapPlaceholder tempId stored l).length = l.length
  ∧ (∀ (i : Nat) (b : Bookmark), l[i]? = some b → b.id ≠ tempId →
        (swapPlaceholder tempId stored l)[i]? = some b)
  ∧ (∀ (i : Nat) (b : Bookmark), l[i]? = some b → b.id = tempId →
        (swapPlaceholder tempId stored l)[i]? = some stored))
  ∧ (∀ b, b ∈ removePlaceholderOnError l ↔ b ∈ l ∧ b.isLoading = false) := by
  refine ⟨⟨?_, ?_, ?_⟩, ?_⟩
  · simp [swapPlaceholder]
  · intro i b hb hne
    simp [swapPlaceholder, List.getElem?_map, hb, hne]
  · intro i b hb heq
    simp [swapPlaceholder, List.getElem?_map, hb, heq]
  · intro b
    simp [removePlaceholderOnError, List.mem_filter]

/-- Witness for `reconciliation_scope`: swapping temporary id 2 leaves the
entry with id 1 unchanged at its position. -/
theorem reconciliation_scope_witness :
    (swapPlaceholder 2 exStored [exForeignPlaceholder, exPersisted])[1]? =
      some exPersisted :=
  (reconciliation_scope 2 exStored [exForeignPlaceholder, exPersisted]).1.2.1
    1 exPersisted (by decide) (by decide)

/-- Prefix tests are monotone: a string starting with `p` also starts
with any prefix `q` of `p`. -/
theorem jsStartsWith_of_isPrefix (s p q : String)
    (hqp : List.IsPrefix q.data p.data) (h : jsStartsWith s p = true) :
    jsStartsWith s q = true := by
  simp only [jsStartsWith, List.isPrefixOf_iff_prefix] at h ⊢
  exact hqp.trans h

/-- C4 counterexample: `httpbin.org` has no recognized scheme prefix, so
the claim requires `https://` to be prepended, but `addBookmark`'s check
is merely `startsWith('http')`: nothing is prepended, and the URL
constructor then rejects the bare hostname. -/
theorem urlNormalization_counterexample :
    specHasRecognizedScheme "httpbin.org" = false
  ∧ dashNormalizeInput "httpbin.org" = "httpbin.org"
  ∧ dashNormalizeInput "httpbin.org" ≠ "https://" ++ "httpbin.org"
  ∧ newURL (dashNormalizeInput "httpbin.org") = none := by
  exact ⟨by decide, by decide, by decide, by decide⟩

/-- C4 amended: `addBookmark` prepends `https://` if and only if the raw
string does not start with the four characters `http` (so a recognized
scheme prefix implies no prepending, but inputs like `httpbin.org` with no
scheme are handed to the constructor unprefixed and fail); the summary
fetcher's internal clean-url step, by contrast, prepends exactly when the
string has no recognized scheme prefix.  When the constructor rejects the
normalized string, the invalid-URL error is surfaced to the caller and
the trace shows no placeholder insertion, no fetch, and no store call. -/
theorem urlNormalization_guard (raw : String) (s0 : DashState) (env : AddEnv)
    (hne : ¬ (jsTrim s0.newUrl).length = 0)
    (hfail : newURL (dashNormalizeInput s0.newUrl) = none) :
    (jsStartsWith raw "http" = false → dashNormalizeInput raw = "https://" ++ raw)
  ∧ (specHasRecognizedScheme raw = true → dashNormalizeInput raw = raw)
  ∧ (summaryCleanUrl raw = "https://" ++ raw ↔ specHasRecognizedScheme raw = false)
  ∧ (addBookmark s0 env).1.error = "Failed to add bookmark. Please check the URL."
  ∧ (addBookmark s0 env).1.newUrl = s0.newUrl
  ∧ (∀ e ∈ (addBookmark s0 env).2,
        (∀ ph shown, e ≠ Event.placeholderShown ph shown)
      ∧ e ≠ Event.titleFetchStarted ∧ e ≠ Event.summaryFetchStarted
      ∧ (∀ row, e ≠ Event.storeInsertStarted row)) := by
  refine ⟨?_, ?_, ⟨?_, ?_⟩, ?_, ?_, ?_⟩
  · intro h
    simp [dashNormalizeInput, h]
  · intro h
    unfold specHasRecognizedScheme at h
    have hpre : jsStartsWith raw "http" = true := by
      rcases (Bool.or_eq_true _ _).mp h with h1 | h1
      · exact jsStartsWith_of_isPrefix raw "http://" "http" (by decide) h1
      · exact jsStartsWith_of_isPrefix raw "https://" "http" (by decide) h1
    simp [dashNormalizeInput, hpre]
  · intro h
    by_contra hspec
    have hspec2 : specHasRecognizedScheme raw = true := by
      cases hb : specHasRecognizedScheme raw
      · exact absurd hb hspec
      · rfl
    have hcond : (!(jsStartsWith raw "http://") &&
        !(jsStartsWith raw "https://")) = false := by
      unfold specHasRecognizedScheme at hspec2
      rcases (Bool.or_eq_true _ _).mp hspec2 with h1 | h1 <;> simp [h1]
    have heq : summaryCleanUrl raw = raw := by
      unfold summaryCleanUrl
      rw [hcond]
      simp
    rw [heq] at h
    have hlen := congrArg String.length h
    rw [String.length_append] at hlen
    have h8 : ("https://" : String).length = 8 := rfl
    rw [h8] at hlen
    omega
  · intro h
    have hcond : (!(jsStartsWith raw "http://") &&
        !(jsStartsWith raw "https://")) = true := by
      unfold specHasRecognizedScheme at h
      rcases Bool.or_eq_false_iff.mp h with ⟨h1, h2⟩
      simp [h1, h2]
    unfold summaryCleanUrl
    rw [hcond]
    simp
  · rw [addBookmark_invalidUrl_run s0 env hne hfail]
  · rw [addBookmark_invalidUrl_run s0 env hne hfail]
  · intro e he
    rw [addBookmark_invalidUrl_run s0 env hne hfail] at he
    simp only [List.mem_cons, List.mem_singleton, List.not_mem_nil, or_false] at he
    rcases he with rfl | rfl
    · exact ⟨fun ph shown => by simp, by simp, by simp, fun row => by simp⟩
    · exact ⟨fun ph shown => by simp, by simp, by simp, fun row => by simp⟩

/-- Witness for `urlNormalization_guard` at the raw input `example.com`
and a state whose raw input the constructor rejects. -/
theorem urlNormalization_guard_witness :
    dashNormalizeInput "example.com" = "https://" ++ "example.com"
  ∧ (addBookmark exBadState exEnvFail).1.error =
      "Failed to add bookmark. Please check the URL." :=
  ⟨(urlNormalization_guard "example.com" exBadState exEnvFail
      (by decide) (by decide)).1 (by decide),
   (urlNormalization_guard "example.com" exBadState exEnvFail
      (by decide) (by decide)).2.2.2.1⟩

/-- C6: in a successful invocation that passes normalization, the trace —
in program order — shows the placeholder, bearing the loading title
marker and sitting at the head of the visible list, before either fetcher
starts; both fetchers settle before the store insert starts; the swap
happens only after the store confirms; and the final list is the
authoritative stored row in the placeholder's head position, with every
other bookmark unchanged (placeholder ids are fresh: persisted rows carry
store-assigned ids, never the invocation's `Date.now()` value). -/
theorem addBookmark_pipeline_order (s0 : DashState) (env : AddEnv)
    (u : URLObj) (stored : Bookmark)
    (hne : ¬ (jsTrim s0.newUrl).length = 0)
    (hurl : newURL (dashNormalizeInput s0.newUrl) = some u)
    (hstore : env.store (insertedRow env u (parseTags s0.newTags)) = .ok stored)
    (hfresh : ∀ b ∈ s0.bookmarks, b.id ≠ env.tempId) :
    (placeholderBookmark env u (parseTags s0.newTags)).title = "Loading..."
  ∧ (placeholderBookmark env u (parseTags s0.newTags)).isLoading = true
  ∧ (placeholderBookmark env u (parseTags s0.newTags)).id = env.tempId
  ∧ (insertedRow env u (parseTags s0.newTags)).title =
      settledTitle u.href env.titleOutcome
  ∧ (insertedRow env u (parseTags s0.newTags)).summary =
      generateSummary env.summaryOutcome
  ∧ (addBookmark s0 env).2 =
      [Event.placeholderShown (placeholderBookmark env u (parseTags s0.newTags))
         (placeholderBookmark env u (parseTags s0.newTags) :: s0.bookmarks),
       Event.titleFetchStarted, Event.summaryFetchStarted, Event.fetchersSettled,
       Event.storeInsertStarted (insertedRow env u (parseTags s0.newTags)),
       Event.storeInsertConfirmed, Event.placeholderSwapped env.tempId]
  ∧ (addBookmark s0 env).1.bookmarks = stored :: s0.bookmarks := by
  refine ⟨rfl, rfl, rfl, rfl, rfl, ?_, ?_⟩
  · rw [addBookmark_storeSuccess_run s0 env u stored hne hurl hstore]
  · rw [addBookmark_storeSuccess_run s0 env u stored hne hurl hstore]
    show swapPlaceholder env.tempId stored
        (placeholderBookmark env u (parseTags s0.newTags) :: s0.bookmarks) =
      stored :: s0.bookmarks
    unfold swapPlaceholder
    rw [List.map_cons]
    congr 1
    · simp [placeholderBookmark]
    · conv_rhs => rw [← List.map_id s0.bookmarks]
      refine List.map_congr_left ?_
      intro b hb
      simp [hfresh b hb]

/-- Witness for `addBookmark_pipeline_order`: a successful concrete run
replaces the placeholder at the head with the stored row. -/
theorem addBookmark_pipeline_order_witness :
    (addBookmark exCleanState exEnvOk).1.bookmarks =
      exStored :: exCleanState.bookmarks :=
  (addBookmark_pipeline_order exCleanState exEnvOk
    ⟨"https://example.com/", "example.com"⟩ exStored
    (by decide) (by decide) rfl (by decide)).2.2.2.2.2.2
